import Mathlib

/-!
Verification of the voxel grid engine of the `isometric-voxel` repository.

Shallow embedding of the voxel store, the undo/redo history, the color
math, the isometric projection and the scene composition, translated from
`src/utils/isometric.ts`, `src/utils/colors.ts` and
`src/hooks/useVoxelGrid.ts`, together with proofs of the specified
properties.
-/

namespace VoxelEngine

/-- A voxel block (interface `Voxel` in `src/types/voxel.ts`).  Grid
coordinates and height are integers in this embedding (every call site
produces integers); `color` is the raw hex string, as in the source. -/
structure Voxel where
  x : Int
  y : Int
  height : Int
  color : String
  deriving DecidableEq, Repr

/-- The voxel store: the JS `Map<string, Voxel>` keyed by the string
`"x,y"` built by `getKey`, modelled as an insertion-ordered association
list keyed by the pair `(x, y)` (the key function is injective on integer
pairs, so the pair is used directly). -/
abbrev VoxelStore := List ((Int × Int) × Voxel)

/-- Lookup in the store (JS `Map.get`): the value of the entry with the
given key, if any.  Keys of a JS `Map` are unique, so taking the first
matching entry is exact. -/
def mapGet (m : VoxelStore) (k : Int × Int) : Option Voxel :=
  match m with
  | [] => none
  | p :: m => if p.1 = k then some p.2 else mapGet m k

/-- Key membership in the store (JS `Map.has`). -/
def mapHas (m : VoxelStore) (k : Int × Int) : Bool :=
  match m with
  | [] => false
  | p :: m => if p.1 = k then true else mapHas m k

/-- Insertion into the store (JS `Map.set`): update the (unique) entry in
place when the key is present, append a new entry otherwise (a JS `Map`
keeps insertion order). -/
def mapSet (m : VoxelStore) (k : Int × Int) (v : Voxel) : VoxelStore :=
  match m with
  | [] => [(k, v)]
  | p :: m => if p.1 = k then (k, v) :: m else p :: mapSet m k v

/-- Deletion from the store (JS `Map.delete`): remove the (unique) entry
with the given key. -/
def mapDelete (m : VoxelStore) (k : Int × Int) : VoxelStore :=
  match m with
  | [] => []
  | p :: m => if p.1 = k then m else p :: mapDelete m k

/-- A history entry.  `HistoryState` in `src/types/voxel.ts` holds the
snapshotted store plus a `Date.now()` wall-clock timestamp; the timestamp
is never read back by any operation (undo/redo restore only `.voxels`),
so a snapshot is modelled as the stored map alone. -/
abbrev Snapshot := VoxelStore

/-- Constant `MAX_HISTORY` from `src/hooks/useVoxelGrid.ts`. -/
def MAX_HISTORY : Nat := 50

/-- Function `saveToHistory` from `src/hooks/useVoxelGrid.ts`, returning
the new `(history, historyIndex)` pair: truncate to
`history.slice(0, historyIndex + 1)`, push the new snapshot, then either
evict the oldest entry (`shift`, when the length would exceed
`MAX_HISTORY`; the index is left unchanged) or increment the index.
`slice(0, historyIndex + 1)` is `take (historyIndex + 1).toNat`; the two
agree for every `historyIndex ≥ -1`, which holds in every reachable state
(see `HistInv`). -/
def saveToHistory (history : List Snapshot) (historyIndex : Int)
    (newVoxels : VoxelStore) : List Snapshot × Int :=
  let newHistory := history.take (historyIndex + 1).toNat ++ [newVoxels]
  if newHistory.length > MAX_HISTORY then
    (newHistory.drop 1, historyIndex)
  else
    (newHistory, historyIndex + 1)

/-- The state held by the `useVoxelGrid` hook: the store, the currently
selected color, the block height, the lighting angle, and the undo/redo
history with its index. -/
structure GridState where
  voxels : VoxelStore
  selectedColor : String
  blockHeight : Int
  lightingAngle : Int
  history : List Snapshot
  historyIndex : Int
  deriving DecidableEq, Repr

/-- Hex values of the `TECH_COLORS` palette (`src/utils/colors.ts`). -/
def TECH_COLORS : List String :=
  ["#3B82F6", "#8B5CF6", "#10B981", "#F59E0B", "#14B8A6", "#475569"]

/-- The initial hook state: empty store, first palette color, block
height 1, lighting angle 45, empty history with index `-1`. -/
def initState : GridState :=
  { voxels := []
    selectedColor := "#3B82F6"
    blockHeight := 1
    lightingAngle := 45
    history := []
    historyIndex := -1 }

/-- Key construction (`getKey` in the hook, producing the string
`"x,y"`); modelled as the pair itself. -/
def getKey (x y : Int) : Int × Int := (x, y)

/-- Function `addVoxel` from `src/hooks/useVoxelGrid.ts`: upsert at
`(x, y)` using the currently selected color and block height, then
snapshot the new store.  When a voxel of the same color is present only
its height is updated; otherwise a fresh voxel record is stored. -/
def addVoxel (s : GridState) (x y : Int) : GridState :=
  let key := getKey x y
  let newVoxels :=
    match mapGet s.voxels key with
    | some existingVoxel =>
        if existingVoxel.color = s.selectedColor then
          mapSet s.voxels key { existingVoxel with height := s.blockHeight }
        else
          mapSet s.voxels key
            { x := x, y := y, height := s.blockHeight, color := s.selectedColor }
    | none =>
        mapSet s.voxels key
          { x := x, y := y, height := s.blockHeight, color := s.selectedColor }
  let hi := saveToHistory s.history s.historyIndex newVoxels
  { s with voxels := newVoxels, history := hi.1, historyIndex := hi.2 }

/-- Function `removeVoxel` from `src/hooks/useVoxelGrid.ts`: when the key
is present, delete it and snapshot; otherwise do nothing at all. -/
def removeVoxel (s : GridState) (x y : Int) : GridState :=
  let key := getKey x y
  if mapHas s.voxels key then
    let newVoxels := mapDelete s.voxels key
    let hi := saveToHistory s.history s.historyIndex newVoxels
    { s with voxels := newVoxels, history := hi.1, historyIndex := hi.2 }
  else
    s

/-- Function `undo` from `src/hooks/useVoxelGrid.ts`: when
`historyIndex > 0`, step the index back and restore that snapshot.  In
every reachable state the new index is in bounds (see `HistInv`), so the
`[]` default of the list lookup is never taken. -/
def undo (s : GridState) : GridState :=
  if s.historyIndex > 0 then
    let newIndex := s.historyIndex - 1
    { s with historyIndex := newIndex
             voxels := s.history.getD newIndex.toNat [] }
  else
    s

/-- Function `redo` from `src/hooks/useVoxelGrid.ts`: when
`historyIndex < history.length - 1`, step the index forward and restore
that snapshot. -/
def redo (s : GridState) : GridState :=
  if s.historyIndex < (s.history.length : Int) - 1 then
    let newIndex := s.historyIndex + 1
    { s with historyIndex := newIndex
             voxels := s.history.getD newIndex.toNat [] }
  else
    s

/-- Predicate `canUndo` from the hook. -/
def canUndo (s : GridState) : Bool := s.historyIndex > 0

/-- Predicate `canRedo` from the hook. -/
def canRedo (s : GridState) : Bool :=
  s.historyIndex < (s.history.length : Int) - 1

/-- The external `upsertVoxel(x, y, height, color)` operation of spec §6:
the UI first selects the color and the height (`setSelectedColor`,
`setBlockHeight`, which do not touch the store or the history) and then
calls `addVoxel(x, y)`. -/
def upsertVoxel (s : GridState) (x y height : Int) (color : String) :
    GridState :=
  addVoxel { s with selectedColor := color, blockHeight := height } x y

/-- Query `getVoxel` from the hook. -/
def getVoxel (s : GridState) (x y : Int) : Option Voxel :=
  mapGet s.voxels (getKey x y)

/-- Query `hasVoxel` from the hook. -/
def hasVoxel (s : GridState) (x y : Int) : Bool :=
  mapHas s.voxels (getKey x y)

example : getVoxel (upsertVoxel initState 0 0 1 "#3B82F6") 0 0 =
    some { x := 0, y := 0, height := 1, color := "#3B82F6" } := by decide

example : (upsertVoxel initState 0 0 1 "#3B82F6").historyIndex = 0 := by decide

/-- Numeric value of one hex digit, upper or lower case, as consumed by
the JS `parseInt(-, 16)` in `adjustBrightness` (`src/utils/colors.ts`). -/
def hexDigitVal (c : Char) : Option Nat :=
  if '0' ≤ c ∧ c ≤ '9' then some (c.toNat - '0'.toNat)
  else if 'a' ≤ c ∧ c ≤ 'f' then some (c.toNat - 'a'.toNat + 10)
  else if 'A' ≤ c ∧ c ≤ 'F' then some (c.toNat - 'A'.toNat + 10)
  else none

/-- Value of the longest leading run of hex digits, given the value of
the digits read so far. -/
def hexPrefixVal : List Char → Nat → Nat
  | [], acc => acc
  | c :: cs, acc =>
    match hexDigitVal c with
    | some d => hexPrefixVal cs (acc * 16 + d)
    | none => acc

/-- JS `parseInt(s, 16)`: the value of the longest leading run of hex
digits, `none` when there is none at all (`NaN`).  Leading whitespace,
signs and a `0x` prefix are not modelled; no call site produces them. -/
def parseIntHex (s : String) : Option Nat :=
  match s.data with
  | [] => none
  | c :: cs =>
    match hexDigitVal c with
    | none => none
    | some d => some (hexPrefixVal cs d)

/-- JS `hex.replace(\x27#\x27, \x27\x27)`: a string `replace` with a
string pattern removes only the first occurrence. -/
def removeFirstHashAux : List Char → List Char
  | [] => []
  | c :: cs => if c = '#' then cs else c :: removeFirstHashAux cs

/-- Removal of the first `'#'` of the string. -/
def removeFirstHash (s : String) : String :=
  String.mk (removeFirstHashAux s.data)

/-- JS `ToInt32` of a nonnegative mathematical integer, as applied by the
JS shift and bitwise-and operators: wrap modulo `2^32` into
`[-2^31, 2^31)`. -/
def jsToInt32 (n : Nat) : Int :=
  let m := n % 4294967296
  if m < 2147483648 then (m : Int) else (m : Int) - 4294967296

/-- JS `(num >> k) & 0xff` applied to the parsed color value: `>>` is the
sign-propagating (arithmetic, i.e. flooring) shift on `ToInt32` of the
operand, and `& 0xff` keeps the low byte of the two's complement.  A
failed parse is `NaN`, and `ToInt32(NaN) = 0`. -/
def channel (num : Option Nat) (k : Nat) : Nat :=
  match num with
  | none => 0
  | some n => ((Int.fdiv (jsToInt32 n) (2 ^ k)).emod 256).toNat

/-- JS `Math.max(0, Math.min(255, c + amount))` followed by the
truncation toward zero that the re-encoding shift/or operators apply
(`ToInt32`); on the clamped range `[0, 255]` truncation is the floor. -/
noncomputable def clampChannel (c : Nat) (amount : ℝ) : Nat :=
  (Int.floor (max 0 (min 255 ((c : ℝ) + amount)))).toNat

/-- JS `n.toString(16)`: lowercase hex digits, no leading zeros. -/
def natToHex (n : Nat) : String :=
  String.mk (Nat.toDigits 16 n)

/-- JS `padStart` to length six with the zero digit. -/
def padStart6 (s : String) : String :=
  String.mk (List.replicate (6 - s.length) '0' ++ s.data)

/-- Function `adjustBrightness` from `src/utils/colors.ts`: parse the hex
value (first `'#'` removed), extract the three channels, add `amount` to
each, clamp to `[0, 255]`, truncate, and re-encode as `'#'` plus six
lowercase hex digits. -/
noncomputable def adjustBrightness (hex : String) (amount : ℝ) : String :=
  let num := parseIntHex (removeFirstHash hex)
  let r := clampChannel (channel num 16) amount
  let g := clampChannel (channel num 8) amount
  let b := clampChannel (channel num 0) amount
  "#" ++ padStart6 (natToHex (Nat.lor (Nat.lor (r <<< 16) (g <<< 8)) b))

/-- Constant `ISO_ANGLE` from `src/utils/isometric.ts` (30 degrees). -/
noncomputable def ISO_ANGLE : ℝ := Real.pi / 6

/-- Constant `ISO_SCALE` from `src/utils/isometric.ts`. -/
noncomputable def ISO_SCALE : ℝ := 20

/-- A screen-space point (interface `IsometricCoords`). -/
structure IsometricCoords where
  x : ℝ
  y : ℝ

/-- Function `gridToIsometric` from `src/utils/isometric.ts`. -/
noncomputable def gridToIsometric (x y z : ℝ) : IsometricCoords :=
  { x := (x - y) * Real.cos ISO_ANGLE * ISO_SCALE
    y := (x + y) * Real.sin ISO_ANGLE * ISO_SCALE - z * ISO_SCALE }

/-- The three face kinds of a voxel. -/
inductive FaceType where
  | top
  | left
  | right
  deriving DecidableEq, Repr

/-- Function `calculateLighting` from `src/utils/isometric.ts`: the
brightness offset of a face for a lighting angle in degrees. -/
noncomputable def calculateLighting (lightingAngle : ℝ) :
    FaceType → ℝ
  | .top => 0
  | .left => -20 + Real.sin (lightingAngle * Real.pi / 180) * 10
  | .right => -30 + Real.cos (lightingAngle * Real.pi / 180) * 10

/-- A voxel face.  The source (`VoxelFace`) stores the polygon as an SVG
path string listing the four corner coordinates; decimal serialisation of
real numbers is not embeddable, so the polygon is kept as the ordered
corner list (the spec's `Face`), with the same fill string. -/
structure VoxelFace where
  polygon : List IsometricCoords
  fill : String

/-- Function `generateVoxelFace` from `src/utils/isometric.ts`: the
corner quad of the requested face and its lighting-adjusted fill. -/
noncomputable def generateVoxelFace (voxel : Voxel) (faceType : FaceType)
    (lightingAngle : ℝ) : VoxelFace :=
  let lighting := calculateLighting lightingAngle faceType
  let fill := adjustBrightness voxel.color lighting
  let x : ℝ := (voxel.x : ℝ)
  let y : ℝ := (voxel.y : ℝ)
  let h : ℝ := (voxel.height : ℝ)
  match faceType with
  | .top =>
      { polygon := [gridToIsometric x y h, gridToIsometric (x + 1) y h,
                    gridToIsometric (x + 1) (y + 1) h,
                    gridToIsometric x (y + 1) h]
        fill := fill }
  | .left =>
      { polygon := [gridToIsometric x y h, gridToIsometric x (y + 1) h,
                    gridToIsometric x (y + 1) 0, gridToIsometric x y 0]
        fill := fill }
  | .right =>
      { polygon := [gridToIsometric (x + 1) y h,
                    gridToIsometric (x + 1) (y + 1) h,
                    gridToIsometric (x + 1) (y + 1) 0,
                    gridToIsometric (x + 1) y 0]
        fill := fill }

/-- The composed scene: the `viewBox` quadruple and the ordered face list
of the SVG produced by `generateSceneSVG` (the surrounding fixed markup
carries no further data). -/
structure Scene where
  viewBoxX : ℝ
  viewBoxY : ℝ
  width : ℝ
  height : ℝ
  faces : List VoxelFace

/-- The z-ordering key of the sort in `generateSceneSVG`. -/
def sortKey (v : Voxel) : Int := v.y + v.x * 100

/-- The sort `Array.from(voxels.values()).sort((a, b) => orderA - orderB)`
of `generateSceneSVG`.  With this comparator the JS sort is a stable sort
by the total preorder `sortKey a ≤ sortKey b`, which is exactly
`List.mergeSort`. -/
def sortedVoxels (voxels : List Voxel) : List Voxel :=
  voxels.mergeSort (fun a b => sortKey a ≤ sortKey b)

/-- The eight projected corners of a voxel used for the bounding box. -/
noncomputable def voxelCorners (v : Voxel) : List IsometricCoords :=
  let x : ℝ := (v.x : ℝ)
  let y : ℝ := (v.y : ℝ)
  let h : ℝ := (v.height : ℝ)
  [gridToIsometric x y h, gridToIsometric (x + 1) y h,
   gridToIsometric (x + 1) (y + 1) h, gridToIsometric x (y + 1) h,
   gridToIsometric x y 0, gridToIsometric (x + 1) y 0,
   gridToIsometric (x + 1) (y + 1) 0, gridToIsometric x (y + 1) 0]

/-- Fold of `Math.min` over the corner coordinates; the source starts
from `Infinity`, so on the nonempty corner list of the nonempty branch
this is the least element (the `[]` arm is never reached there). -/
noncomputable def foldMin : List ℝ → ℝ
  | [] => 0
  | a :: l => l.foldl min a

/-- Fold of `Math.max` over the corner coordinates, starting from
`-Infinity` in the source; least upper bound of the nonempty list. -/
noncomputable def foldMax : List ℝ → ℝ
  | [] => 0
  | a :: l => l.foldl max a

/-- Function `generateSceneSVG` from `src/utils/isometric.ts`, at the
level of the scene data: an empty store yields the fixed default
`viewBox="0 0 400 400"` scene with no faces; otherwise the voxels are
sorted by `sortKey`, each contributes its right, left and top face in
that order, and the `viewBox` is the corner bounding box padded by 40 on
every side. -/
noncomputable def generateSceneSVG (voxels : List Voxel)
    (lightingAngle : ℝ) : Scene :=
  if voxels.length = 0 then
    { viewBoxX := 0, viewBoxY := 0, width := 400, height := 400, faces := [] }
  else
    let sorted := sortedVoxels voxels
    let faces := sorted.flatMap (fun voxel =>
      [generateVoxelFace voxel .right lightingAngle,
       generateVoxelFace voxel .left lightingAngle,
       generateVoxelFace voxel .top lightingAngle])
    let corners := sorted.flatMap voxelCorners
    let minX := foldMin (corners.map IsometricCoords.x)
    let minY := foldMin (corners.map IsometricCoords.y)
    let maxX := foldMax (corners.map IsometricCoords.x)
    let maxY := foldMax (corners.map IsometricCoords.y)
    let padding : ℝ := 40
    { viewBoxX := minX - padding
      viewBoxY := minY - padding
      width := maxX - minX + padding * 2
      height := maxY - minY + padding * 2
      faces := faces }

/-- The external `renderScene(lightingAngle)` operation of spec §6:
compose the scene from the store's values in insertion order
(`Array.from(voxels.values())`). -/
noncomputable def renderScene (s : GridState) (lightingAngle : ℝ) : Scene :=
  generateSceneSVG (s.voxels.map Prod.snd) lightingAngle

/-- Well-formed `#RRGGBB` color string: the regex of `hexToRgb` in
`src/utils/colors.ts` (an optional `#` followed by exactly six hex
digits, case-insensitive). -/
def isValidHexColor (s : String) : Bool :=
  let ds := match s.data with
    | '#' :: rest => rest
    | l => l
  ds.length == 6 && ds.all (fun c => (hexDigitVal c).isSome)

example : isValidHexColor "#3B82F6" = true := by decide

example : isValidHexColor "zzz" = false := by decide

example : parseIntHex (removeFirstHash "#3B82F6") = some 3900150 := by decide

example : channel (some 3900150) 16 = 59 := by decide

example : channel (some 3900150) 8 = 130 := by decide

example : channel (some 3900150) 0 = 246 := by decide

/-- Looking up the key just written by `mapSet` yields the written
voxel. -/
theorem mapGet_mapSet_self (m : VoxelStore) (k : Int × Int) (v : Voxel) :
    mapGet (mapSet m k v) k = some v := by
  induction m with
  | nil => simp [mapGet, mapSet]
  | cons p m ih =>
    by_cases hp : p.1 = k
    · simp [mapGet, mapSet, hp]
    · simp [mapGet, mapSet, hp, ih]

/-- Core of claims C1 and C7: whatever the prior state, the upsert
succeeds and the stored voxel carries exactly the requested height and
color (when a voxel of the same color is present only its height field is
rewritten, otherwise a fresh record is written; both carry the requested
height and color). -/
theorem upsert_stores (s : GridState) (x y height : Int) (color : String) :
    ∃ v, getVoxel (upsertVoxel s x y height color) x y = some v ∧
      v.height = height ∧ v.color = color := by
  unfold upsertVoxel addVoxel getVoxel getKey
  cases hm : mapGet s.voxels (x, y) with
  | none =>
      refine ⟨{ x := x, y := y, height := height, color := color }, ?_,
        rfl, rfl⟩
      simp [hm, mapGet_mapSet_self]
  | some ex =>
      by_cases hc : ex.color = color
      · refine ⟨{ ex with height := height }, ?_, rfl, hc⟩
        simp [hm, hc, mapGet_mapSet_self]
      · refine ⟨{ x := x, y := y, height := height, color := color }, ?_,
          rfl, rfl⟩
        simp [hm, hc, mapGet_mapSet_self]

/-- C9: for every lighting angle, composing a scene from an empty store
returns the fixed default scene: zero faces and the default square
`viewBox="0 0 400 400"`; it does not fail and does not depend on the
angle. -/
theorem claimC9_emptyScene (a : ℝ) :
    generateSceneSVG [] a =
      { viewBoxX := 0, viewBoxY := 0, width := 400, height := 400,
        faces := [] } := rfl

/-- C10: removing at a position that holds no voxel is a complete no-op:
the store, the snapshot sequence and the history index are all left
unchanged. -/
theorem claimC10_removeNoop (s : GridState) (x y : Int)
    (h : hasVoxel s x y = false) :
    removeVoxel s x y = s := by
  unfold hasVoxel at h
  unfold removeVoxel
  simp [getKey] at h ⊢
  simp [h]

theorem claimC10_removeNoop_witness :
    hasVoxel initState 0 0 = false ∧ removeVoxel initState 0 0 = initState :=
  ⟨by decide, claimC10_removeNoop initState 0 0 (by decide)⟩

/-- C6: for every state, `undo` when `canUndo` is false and `redo` when
`canRedo` is false are safe no-ops leaving the whole state (store,
snapshots and index) unchanged. -/
theorem claimC6_noopSafety (s : GridState) :
    (canUndo s = false → undo s = s) ∧ (canRedo s = false → redo s = s) := by
  constructor
  · intro h
    unfold canUndo at h
    unfold undo
    simp at h
    simp [h]
  · intro h
    unfold canRedo at h
    unfold redo
    simp at h
    simp [h]

theorem claimC6_noopSafety_witness :
    undo initState = initState ∧ redo initState = initState :=
  ⟨(claimC6_noopSafety initState).1 (by decide),
   (claimC6_noopSafety initState).2 (by decide)⟩

/-- C1 fails on the code: `addVoxel` (the store mutation behind
`upsertVoxel`) performs no validation whatsoever, so an out-of-range
coordinate (x = 20), an out-of-range height (0) and a malformed color
string all succeed and change the store instead of failing and leaving it
unchanged. -/
theorem claimC1_counterexample :
    (upsertVoxel initState 20 0 1 "#3B82F6").voxels ≠ initState.voxels ∧
    (upsertVoxel initState 0 0 0 "#3B82F6").voxels ≠ initState.voxels ∧
    (upsertVoxel initState 0 0 1 "not-a-color").voxels ≠ initState.voxels := by
  decide

/-- C1 amended: `upsertVoxel` never fails.  For every state and every
`(x, y, height, color)` — in range or not, well-formed or not — the
mutation succeeds and stores a voxel with exactly that height and color;
there is no `InvalidCoordinate`, `InvalidHeight` or `InvalidColor`
rejection path in the store mutation (input validity is enforced upstream
by the UI). -/
theorem claimC1_upsertNeverFails (s : GridState) (x y height : Int)
    (color : String) :
    ∃ v, getVoxel (upsertVoxel s x y height color) x y = some v ∧
      v.height = height ∧ v.color = color :=
  upsert_stores s x y height color

/-- C7: for every valid coordinate, height and well-formed color,
upserting and then reading the cell returns a voxel with exactly the
upserted height and color, whether or not a voxel (of any color) was
already there. -/
theorem claimC7_upsertThenGet (s : GridState) (x y height : Int)
    (color : String) (hx0 : 0 ≤ x) (hx1 : x ≤ 19) (hy0 : 0 ≤ y)
    (hy1 : y ≤ 19) (hh0 : 1 ≤ height) (hh1 : height ≤ 10)
    (hc : isValidHexColor color = true) :
    ∃ v, getVoxel (upsertVoxel s x y height color) x y = some v ∧
      v.height = height ∧ v.color = color :=
  upsert_stores s x y height color

theorem claimC7_upsertThenGet_witness :
    isValidHexColor "#3B82F6" = true ∧
    ∃ v, getVoxel (upsertVoxel initState 0 0 1 "#3B82F6") 0 0 = some v ∧
      v.height = 1 ∧ v.color = "#3B82F6" :=
  ⟨by decide,
   claimC7_upsertThenGet initState 0 0 1 "#3B82F6" (by decide) (by decide)
     (by decide) (by decide) (by decide) (by decide) (by decide)⟩

/-- C5: a save truncates the snapshots to positions `[0, index]` and then
appends the new snapshot (evicting the oldest entry when the cap is
exceeded); concretely, after 3 edits, 2 undos and 1 fresh edit, a redo is
a no-op on the whole state: the redo branch was discarded. -/
theorem claimC5_branchDiscard :
    (∀ (h : List Snapshot) (i : Int) (nv : VoxelStore), -1 ≤ i →
      saveToHistory h i nv =
        (let t := h.take (i + 1).toNat ++ [nv]
         if t.length > MAX_HISTORY then (t.drop 1, i) else (t, i + 1))) ∧
    (let s3 := upsertVoxel (upsertVoxel (upsertVoxel initState
        0 0 1 "#3B82F6") 0 0 2 "#3B82F6") 0 0 3 "#3B82F6"
     let s := upsertVoxel (undo (undo s3)) 0 0 4 "#3B82F6"
     redo s = s) := by
  constructor
  · intro h i nv _
    rfl
  · decide

theorem claimC5_branchDiscard_witness :
    (-1 : Int) ≤ 0 ∧
    saveToHistory [[]] 0 [] =
      (let t := ([[]] : List Snapshot).take ((0 : Int) + 1).toNat ++ [[]]
       if t.length > MAX_HISTORY then (t.drop 1, 0) else (t, 0 + 1)) :=
  ⟨by decide, claimC5_branchDiscard.1 [[]] 0 [] (by decide)⟩

/-- The history invariant of spec §3: the index stays in
`[-1, length)`, it is `-1` only on the empty history (an index of `-1`
forces an empty snapshot sequence; the converse already follows from the
bounds), and the length never exceeds `MAX_HISTORY`. -/
def HistInv (history : List Snapshot) (index : Int) : Prop :=
  -1 ≤ index ∧ index < (history.length : Int) ∧
  (index = -1 → history.length = 0) ∧ history.length ≤ MAX_HISTORY

/-- C3: the invariant holds initially, is preserved by every save, undo
and redo, and an overflowing save evicts exactly the oldest snapshot
while leaving the index unchanged. -/
theorem claimC3_historyInvariant :
    HistInv initState.history initState.historyIndex ∧
    (∀ (h : List Snapshot) (i : Int) (nv : VoxelStore), HistInv h i →
      HistInv (saveToHistory h i nv).1 (saveToHistory h i nv).2) ∧
    (∀ s : GridState, HistInv s.history s.historyIndex →
      HistInv (undo s).history (undo s).historyIndex) ∧
    (∀ s : GridState, HistInv s.history s.historyIndex →
      HistInv (redo s).history (redo s).historyIndex) ∧
    (∀ (h : List Snapshot) (i : Int) (nv : VoxelStore), HistInv h i →
      (h.take (i + 1).toNat ++ [nv]).length > MAX_HISTORY →
      saveToHistory h i nv = (h.drop 1 ++ [nv], i)) := by
  refine ⟨?_, ?_, ?_, ?_, ?_⟩
  · unfold HistInv initState MAX_HISTORY
    decide
  · intro h i nv hinv
    obtain ⟨h1, h2, h3, h4⟩ := hinv
    simp only [saveToHistory]
    split
    next hc =>
      simp only [HistInv, List.length_drop, List.length_append,
        List.length_take, List.length_singleton, MAX_HISTORY] at *
      omega
    next hc =>
      simp only [HistInv, List.length_append, List.length_take,
        List.length_singleton, MAX_HISTORY] at *
      omega
  · intro s hinv
    obtain ⟨h1, h2, h3, h4⟩ := hinv
    unfold undo
    split
    next hgt =>
      simp only [HistInv, MAX_HISTORY] at *
      omega
    next =>
      exact ⟨h1, h2, h3, h4⟩
  · intro s hinv
    obtain ⟨h1, h2, h3, h4⟩ := hinv
    unfold redo
    split
    next hlt =>
      simp only [HistInv, MAX_HISTORY] at *
      omega
    next =>
      exact ⟨h1, h2, h3, h4⟩
  · intro h i nv hinv hover
    obtain ⟨h1, h2, h3, h4⟩ := hinv
    have hlen : (h.take (i + 1).toNat).length = h.length := by
      simp only [List.length_append, List.length_take,
        List.length_singleton, MAX_HISTORY] at *
      omega
    have htake : h.take (i + 1).toNat = h :=
      List.take_of_length_le (by
        simp only [List.length_take] at hlen
        omega)
    rw [htake] at hover
    simp only [saveToHistory, htake, if_pos hover]
    cases h with
    | nil => simp [MAX_HISTORY] at hover
    | cons a t => simp

theorem claimC3_historyInvariant_witness :
    HistInv [] (-1) ∧
    HistInv (saveToHistory [] (-1) []).1 (saveToHistory [] (-1) []).2 :=
  ⟨by unfold HistInv MAX_HISTORY; decide,
   claimC3_historyInvariant.2.1 [] (-1) []
     (by unfold HistInv MAX_HISTORY; decide)⟩

/-- One edit of the 60-edit scenario (spec §8): all edits target cell
`(0, 0)`, heights cycle through 1..10 and the palette color advances
every ten edits, so all sixty edits are distinct and every one changes
the store. -/
def editStep (i : Nat) (s : GridState) : GridState :=
  upsertVoxel s 0 0 ((i % 10 : Nat) + 1) (TECH_COLORS.getD (i / 10) "#3B82F6")

/-- The state after the first `n` edits of the scenario. -/
def afterEdits (n : Nat) : GridState :=
  (List.range n).foldl (fun s i => editStep i s) initState

set_option maxRecDepth 100000 in
/-- C4: after 60 sequential distinct edits the history length is at most
50 (here exactly 50), `canUndo` holds, and undoing repeatedly bottoms out
at the oldest retained snapshot — the state after edit 11, not the state
after the very first edit. -/
theorem claimC4_historyBound :
    (afterEdits 60).history.length ≤ MAX_HISTORY ∧
    canUndo (afterEdits 60) = true ∧
    (undo^[60] (afterEdits 60)).voxels = (afterEdits 60).history.getD 0 [] ∧
    (afterEdits 60).history.getD 0 [] = (afterEdits 11).voxels ∧
    (undo^[60] (afterEdits 60)).voxels ≠ (afterEdits 1).voxels ∧
    ((List.range 60).map (fun n => (afterEdits (n + 1)).voxels)).Nodup := by
  decide

/-- With brightness offset 0, a channel already in `[0, 255]` is returned
unchanged by the clamp-and-truncate step. -/
theorem clampChannel_zero (c : Nat) (h : c ≤ 255) : clampChannel c 0 = c := by
  unfold clampChannel
  rw [add_zero]
  rw [min_eq_right (by exact_mod_cast h : (c : ℝ) ≤ 255)]
  rw [max_eq_right (by positivity : (0 : ℝ) ≤ (c : ℝ))]
  rw [Int.floor_natCast]
  exact Int.toNat_natCast c

/-- Brightness offset 0 on the scenario color: the channels survive
unchanged but the re-encoding emits lowercase hex digits, so the fill
string is `"#3b82f6"`, not the original `"#3B82F6"`. -/
theorem adjustBrightness_blue_zero :
    adjustBrightness "#3B82F6" 0 = "#3b82f6" := by
  simp only [adjustBrightness]
  rw [show parseIntHex (removeFirstHash "#3B82F6") = some 3900150 from by
        decide,
      show channel (some 3900150) 16 = 59 from by decide,
      show channel (some 3900150) 8 = 130 from by decide,
      show channel (some 3900150) 0 = 246 from by decide,
      clampChannel_zero 59 (by decide), clampChannel_zero 130 (by decide),
      clampChannel_zero 246 (by decide)]
  decide

/-- The face list composed from a one-voxel store: right, left, top. -/
theorem generateSceneSVG_faces_singleton (v : Voxel) (a : ℝ) :
    (generateSceneSVG [v] a).faces =
      [generateVoxelFace v .right a, generateVoxelFace v .left a,
       generateVoxelFace v .top a] := by
  unfold generateSceneSVG
  simp [sortedVoxels]

/-- The voxel stored by the C2 scenario. -/
def vBlue : Voxel := { x := 0, y := 0, height := 1, color := "#3B82F6" }

/-- The C2 scenario store holds exactly `vBlue` at key `(0, 0)`. -/
theorem scenario_store :
    (upsertVoxel initState 0 0 1 "#3B82F6").voxels = [((0, 0), vBlue)] := by
  decide

/-- C2 fails as stated: in the scenario the rendered top-face fill (the
last of the three emitted faces) is the lowercase re-encoding
`"#3b82f6"` produced by `adjustBrightness`, not the unchanged input
string `"#3B82F6"`. -/
theorem claimC2_counterexample :
    ((renderScene (upsertVoxel initState 0 0 1 "#3B82F6") 45).faces.map
      VoxelFace.fill).getD 2 "" ≠ "#3B82F6" := by
  unfold renderScene
  rw [scenario_store]
  simp only [List.map_cons, List.map_nil]
  rw [generateSceneSVG_faces_singleton]
  simp only [generateVoxelFace, calculateLighting, List.map_cons,
    List.map_nil, vBlue]
  rw [adjustBrightness_blue_zero]
  decide

/-- C2 amended: the scenario renders exactly 3 faces, in order right,
left, top; the left and right fills are `adjustBrightness` of the base
color at offsets `-20 + sin(45°)·10` and `-30 + cos(45°)·10`, and the top
fill is `"#3b82f6"` — the same RGB value as the upserted `"#3B82F6"`,
re-encoded in lowercase by the zero-offset brightness pass. -/
theorem claimC2_amendedScenario :
    (renderScene (upsertVoxel initState 0 0 1 "#3B82F6") 45).faces.length
        = 3 ∧
    (renderScene (upsertVoxel initState 0 0 1 "#3B82F6") 45).faces.map
        VoxelFace.fill =
      [adjustBrightness "#3B82F6"
        (-30 + Real.cos (45 * Real.pi / 180) * 10),
       adjustBrightness "#3B82F6"
        (-20 + Real.sin (45 * Real.pi / 180) * 10),
       "#3b82f6"] := by
  unfold renderScene
  rw [scenario_store]
  simp only [List.map_cons, List.map_nil]
  rw [generateSceneSVG_faces_singleton]
  refine ⟨rfl, ?_⟩
  simp only [generateVoxelFace, calculateLighting, List.map_cons,
    List.map_nil, vBlue]
  rw [adjustBrightness_blue_zero]

/-- C8: for every nonempty store and every angle, the composed face list
is grouped by voxel — the voxels in ascending `y + x·100` order, each
contributing its right, left and top face in that order. -/
theorem claimC8_sceneOrdering (vs : List Voxel) (a : ℝ) (hne : vs ≠ []) :
    ∃ sorted : List Voxel,
      List.Perm sorted vs ∧
      sorted.Pairwise (fun u w => sortKey u ≤ sortKey w) ∧
      (generateSceneSVG vs a).faces =
        sorted.flatMap (fun v =>
          [generateVoxelFace v .right a, generateVoxelFace v .left a,
           generateVoxelFace v .top a]) := by
  refine ⟨sortedVoxels vs, ?_, ?_, ?_⟩
  · unfold sortedVoxels
    exact List.mergeSort_perm vs _
  · have hp := @List.sorted_mergeSort Voxel
      (fun u w => decide (sortKey u ≤ sortKey w))
      (fun u w z hu hw => by
        simp only [decide_eq_true_eq] at *
        omega)
      (fun u w => by
        simp only [Bool.or_eq_true, decide_eq_true_eq]
        omega) vs
    unfold sortedVoxels
    exact hp.imp (fun hab => by simpa using hab)
  · unfold generateSceneSVG
    rw [if_neg (by simpa [List.length_eq_zero] using hne)]

theorem claimC8_sceneOrdering_witness :
    ([vBlue] : List Voxel) ≠ [] ∧
    ∃ sorted : List Voxel,
      List.Perm sorted [vBlue] ∧
      sorted.Pairwise (fun u w => sortKey u ≤ sortKey w) ∧
      (generateSceneSVG [vBlue] 0).faces =
        sorted.flatMap (fun v =>
          [generateVoxelFace v .right 0, generateVoxelFace v .left 0,
           generateVoxelFace v .top 0]) :=
  ⟨by decide, claimC8_sceneOrdering [vBlue] 0 (by decide)⟩

end VoxelEngine
